import Mathlib

/-!
Shallow embedding of the `panic-write` crate (`src/lib.rs`).

The crate provides a runtime-registerable panic handler for `no_std`
environments.  Two `static mut` globals form the Global Dispatch Slot:

  static mut PANIC_HANDLER_GETTER: Option<unsafe fn(*mut (), &PanicInfo)> = None;
  static mut PANIC_HANDLER: *mut () = null_mut();

`PanicHandler<W, F>` owns a writer (`MaybeUninit<W>`) and a hook `F`;
`register` publishes the monomorphized `trampoline::<W, F>` together with the
handler's address into the globals, `detach` clears the globals and moves the
writer out (leaving `MaybeUninit::uninit()` behind), the `Drop` impl for
`Pin<&mut PanicHandler<W, F>>` clears the globals, and the `#[panic_handler]`
entry point calls the stored trampoline (if any) and then loops forever.

Modelling choices, each mirroring one feature of the Rust source:
* Process memory holding the handler objects is an explicit map
  `Nat → Option (PanicHandler W)`; a `Nat` address models `*mut ()`, with `0`
  for `null_mut()`.
* `MaybeUninit<W>` is `Option W`: `some` = initialized, `none` = uninit.
  Reading an uninit writer (the `assume_init` / `&mut *as_mut_ptr()` sites) is
  undefined behaviour; operations that can hit it return `Option`, with `none`
  marking the UB execution.
* The monomorphization index `⟨W, F⟩` of a handler's concrete type is modelled
  by a `tag : Nat` carried by the handler; `trampoline tag` stands for the
  specialized function `trampoline::<W, F>` and `transmute`-ing the stored
  pointer at a different type than the pointee's (a tag mismatch) is UB.
* `F : FnMut(&mut W, &PanicInfo)` is modelled state-passing as
  `W → PanicInfo → W` (the hook is invoked at most once, from fault context,
  so its own captured state needs no modelling).
* The diverging `loop {}` at the end of the panic entry point is modelled by a
  terminal `halted` flag on the global state.
-/

namespace PanicWrite

/-- Models `core::panic::PanicInfo`, opaque to the crate.  Its `Display`
representation (what `write!(out, "{}", info)` produces) is `text`. -/
structure PanicInfo where
  text : String
deriving DecidableEq

/-- The `core::fmt::Write` capability consumed by the crate: `write_str`
appends a string, returning the updated sink and a success flag
(`true` = `Ok(())`, `false` = `Err(fmt::Error)`). -/
structure WriteStr (W : Type) where
  write_str : W → String → W × Bool

/-- Models `fn default_hook<W: Write>(out: &mut W, info: &PanicInfo) {
  let _ = write!(out, "{}", info);
}` — writes the panic info's textual representation, discarding (swallowing)
any formatting error. -/
def default_hook {W : Type} (wm : WriteStr W) (out : W) (info : PanicInfo) : W :=
  (wm.write_str out info.text).1

/-- Models `pub struct PanicHandler<W: Write, F: FnMut(&mut W, &PanicInfo)>`
with fields `writer: MaybeUninit<W>`, `hook: F`, `_pin: PhantomPinned`.
`tag` models the compile-time monomorphization index `⟨W, F⟩` of the handler's
concrete type (it is not runtime data in the source; it records which
`trampoline::<W, F>` instance matches this handler). -/
structure PanicHandler (W : Type) where
  writer : Option W
  hook : W → PanicInfo → W
  tag : Nat

/-- Models `pub fn new_with_hook(writer: W, hook: F) -> Self` — writer starts
initialized (`MaybeUninit::new(writer)`). -/
def new_with_hook {W : Type} (writer : W) (hook : W → PanicInfo → W) (tag : Nat) :
    PanicHandler W :=
  { writer := some writer, hook := hook, tag := tag }

/-- Models `pub fn new(writer: W) -> PanicHandler<W, fn(&mut W, &PanicInfo)>` —
`new_with_hook` with the default hook. -/
def new {W : Type} (wm : WriteStr W) (writer : W) (tag : Nat) : PanicHandler W :=
  new_with_hook writer (default_hook wm) tag

/-- The process-wide state: handler memory plus the two `static mut` globals
of the Global Dispatch Slot, and the `halted` flag modelling the terminal
`loop {}` of the panic entry point.  `PANIC_HANDLER_GETTER : Option Nat`
stores the tag of the published `trampoline::<W, F>` instance (`none` =
`None`); `PANIC_HANDLER : Nat` is the stored untyped pointer (`0` =
`null_mut()`). -/
structure Sys (W : Type) where
  mem : Nat → Option (PanicHandler W)
  PANIC_HANDLER_GETTER : Option Nat
  PANIC_HANDLER : Nat
  halted : Bool

/-- Point update of handler memory. -/
def updMem {W : Type} (m : Nat → Option (PanicHandler W)) (a : Nat)
    (v : Option (PanicHandler W)) : Nat → Option (PanicHandler W) :=
  fun x => if x = a then v else m x

/-- Process start: both globals at their static initializers
(`None`, `null_mut()`), no handler allocated, not halted. -/
def initSys (W : Type) : Sys W :=
  { mem := fun _ => none, PANIC_HANDLER_GETTER := none, PANIC_HANDLER := 0,
    halted := false }

/-- Models `unsafe fn trampoline<W, F>(ptr: *mut (), info: &PanicInfo)` —
transmutes `ptr` back to `&mut PanicHandler<W, F>`, reads the writer out of
its `MaybeUninit`, and calls the hook on it.  `tag` is the monomorphization
index `⟨W, F⟩` this instance was generated for.  `none` marks the undefined
executions: a dangling pointer, a transmute at the wrong concrete type, or the
uninit-writer read. -/
def trampoline {W : Type} (s : Sys W) (tag : Nat) (ptr : Nat) (info : PanicInfo) :
    Option (Sys W) :=
  (s.mem ptr).bind fun h =>
    if h.tag = tag then
      h.writer.map fun w =>
        { s with
          mem := updMem s.mem ptr (some { h with writer := some (h.hook w info) }) }
    else none

/-- Models `pub fn register(self: &mut Pin<&mut Self>)` — writes
`Some(trampoline::<W, F>)` and the handler's address into the globals.
`tag` is the monomorphization index of `Self`, `addr` the pinned address of
the handler (`transmute(self.as_ref())`). -/
def register {W : Type} (s : Sys W) (addr : Nat) (tag : Nat) : Sys W :=
  { s with PANIC_HANDLER_GETTER := some tag, PANIC_HANDLER := addr }

/-- Models `pub fn detach(handler: Pin<&mut Self>) -> W` — first clears both globals,
then replaces the handler's writer with `MaybeUninit::uninit()` and returns
the old writer via `assume_init` (modelled as the `Option W` second
component; `none` would be the UB of `assume_init` on uninit, and the
`none` memory branch is unreachable in Rust since `handler` borrows a live
object). -/
def detach {W : Type} (s : Sys W) (addr : Nat) : Sys W × Option W :=
  let s1 : Sys W :=
    { s with PANIC_HANDLER_GETTER := none, PANIC_HANDLER := 0 }
  match s1.mem addr with
  | some h =>
    ({ s1 with mem := updMem s1.mem addr (some { h with writer := none }) },
     h.writer)
  | none => (s1, none)

/-- Models `impl Drop for Pin<&mut PanicHandler<W, F>>` — unconditionally clears
both globals; it does not touch the handler's memory. -/
def drop {W : Type} (s : Sys W) : Sys W :=
  { s with PANIC_HANDLER_GETTER := none, PANIC_HANDLER := 0 }

/-- Scope exit of a handler living at `addr` without an explicit detach: the
`Drop` impl for the pinned handle runs first (clearing the globals), then the
handler's storage is released. -/
def destroy {W : Type} (s : Sys W) (addr : Nat) : Sys W :=
  let s1 := drop s
  { s1 with mem := updMem s1.mem addr none }

/-- Models `#[panic_handler] fn panic(info: &PanicInfo) -> !` — if the getter is
present, calls the stored trampoline on the stored pointer, then `loop {}`
(modelled by setting `halted`).  `none` propagates the trampoline's UB. -/
def panic {W : Type} (s : Sys W) (info : PanicInfo) : Option (Sys W) :=
  match s.PANIC_HANDLER_GETTER with
  | none => some { s with halted := true }
  | some tag =>
    (trampoline s tag s.PANIC_HANDLER info).map fun s2 => { s2 with halted := true }

/-- Models `impl Deref for PanicHandler<W, F>` — reads the writer out of its
`MaybeUninit` (`&*self.writer.as_ptr()`); `none` is the uninit-read UB. -/
def deref {W : Type} (h : PanicHandler W) : Option W :=
  h.writer

/-- Models `impl DerefMut for PanicHandler<W, F>` — a mutation `f` performed through
the `&mut W` returned by `deref_mut` (`&mut *self.writer.as_mut_ptr()`);
`none` is the uninit-read UB. -/
def deref_mut {W : Type} (h : PanicHandler W) (f : W → W) : Option (PanicHandler W) :=
  h.writer.map fun w => { h with writer := some (f w) }

/-- Models `pub fn get_inner(self: Pin<&mut Self>) -> &mut W` — `get_unchecked_mut`
followed by the `DerefMut` coercion: an access to the stored writer. -/
def get_inner {W : Type} (h : PanicHandler W) : Option W :=
  h.writer

/-- Using the handler at `addr` as the application's output sink: a mutation
`f` of the underlying writer through the handler's `DerefMut` surface. -/
def useSinkAt {W : Type} (s : Sys W) (addr : Nat) (f : W → W) : Sys W :=
  match s.mem addr with
  | some h =>
    match deref_mut h f with
    | some h' => { s with mem := updMem s.mem addr (some h') }
    | none => s
  | none => s

/-- Run a sequence of sink uses (the application writing ordinary output
through handlers) between registration and a fault. -/
def runUses {W : Type} (s : Sys W) : List (Nat × (W → W)) → Sys W
  | [] => s
  | (a, f) :: rest => runUses (useSinkAt s a f) rest

/-- The Global Dispatch Slot invariant: the untyped pointer and the trampoline
are both absent or both present, and when present the stored trampoline is the
one monomorphized for the concrete type of the live handler the pointer refers
to. -/
def slotInv {W : Type} (s : Sys W) : Prop :=
  (s.PANIC_HANDLER_GETTER = none ∧ s.PANIC_HANDLER = 0) ∨
  (∃ tag h, s.PANIC_HANDLER_GETTER = some tag ∧ s.PANIC_HANDLER ≠ 0 ∧
    s.mem s.PANIC_HANDLER = some h ∧ h.tag = tag)

/-- A concrete appendable sink: a growable text buffer whose `write_str`
always succeeds. -/
def strWriter : WriteStr String :=
  { write_str := fun s t => (s ++ t, true) }

/-! Concrete fixtures used to instantiate the theorems below on closed
inputs. -/

/-- A custom hook that appends the fixed text "FAULT" regardless of the
panic info. -/
def hookF : String → PanicInfo → String := fun w _ => w ++ "FAULT"

/-- A custom hook that appends "A". -/
def hookA : String → PanicInfo → String := fun w _ => w ++ "A"

/-- A custom hook that appends "B". -/
def hookB : String → PanicInfo → String := fun w _ => w ++ "B"

/-- Memory holding two live handler objects: H1 at address 1 (tag 10) and H2
at address 2 (tag 20). -/
def mem2 : Nat → Option (PanicHandler String) :=
  updMem (updMem (fun _ => none) 1 (some (new_with_hook "s1" hookA 10)))
    2 (some (new_with_hook "s2" hookB 20))

/-- Two live handlers, H1 (address 1) currently registered. -/
def sys2 : Sys String :=
  { mem := mem2, PANIC_HANDLER_GETTER := some 10, PANIC_HANDLER := 1,
    halted := false }

/-- Two live handlers, neither registered. -/
def sys2u : Sys String :=
  { mem := mem2, PANIC_HANDLER_GETTER := none, PANIC_HANDLER := 0,
    halted := false }

/-- One registered handler with the custom "FAULT" hook and an empty buffer. -/
def sysF : Sys String :=
  { mem := updMem (fun _ => none) 1 (some (new_with_hook "" hookF 7)),
    PANIC_HANDLER_GETTER := some 7, PANIC_HANDLER := 1, halted := false }

/-- One registered handler built by `new` (default hook) over an empty
growable text buffer. -/
def sysDefault : Sys String :=
  { mem := updMem (fun _ => none) 1 (some (new strWriter "" 3)),
    PANIC_HANDLER_GETTER := some 3, PANIC_HANDLER := 1, halted := false }

/-! ## Claims -/

/-- C1: the fixed fault entry point `panic` performs no reporting action when
the Global Dispatch Slot's entry is absent (the returned state differs from
`s` only in `halted`, so no sink is written); when the entry is present it
calls the stored trampoline with the stored untyped pointer and the fault
metadata, which invokes the registered handler's hook on its writer; and
every defined outcome of the entry point is halted — it never returns. -/
theorem panic_entry_spec {W : Type} (s : Sys W) (info : PanicInfo) :
    (s.PANIC_HANDLER_GETTER = none → panic s info = some { s with halted := true }) ∧
    (∀ tag h w, s.PANIC_HANDLER_GETTER = some tag → s.mem s.PANIC_HANDLER = some h →
      h.tag = tag → h.writer = some w →
      panic s info = some { s with
        mem := updMem s.mem s.PANIC_HANDLER
          (some { h with writer := some (h.hook w info) }),
        halted := true }) ∧
    (∀ s', panic s info = some s' → s'.halted = true) := by
  refine ⟨?_, ?_, ?_⟩
  · intro hg
    simp [panic, hg]
  · intro tag h w hg hm ht hw
    simp [panic, hg, trampoline, hm, ht, hw]
  · intro s' hs
    unfold panic at hs
    cases hget : s.PANIC_HANDLER_GETTER with
    | none =>
      rw [hget] at hs
      simp only [Option.some.injEq] at hs
      subst hs
      rfl
    | some tag =>
      rw [hget] at hs
      rw [Option.map_eq_some'] at hs
      obtain ⟨a, _, ha⟩ := hs
      subst ha
      rfl

/-- Witness for C1: with no handler ever registered, a simulated fault leaves
every sink untouched and halts; with a registered handler, the fault runs the
handler's hook on its sink and halts. -/
theorem panic_entry_spec_witness :
    panic (initSys String) { text := "boom" } =
      some { initSys String with halted := true } ∧
    panic sysF { text := "boom" } =
      some { sysF with
        mem := updMem sysF.mem sysF.PANIC_HANDLER
          (some { new_with_hook "" hookF 7 with
            writer := some ((new_with_hook "" hookF 7).hook "" { text := "boom" }) }),
        halted := true } := by
  constructor
  · exact (panic_entry_spec (initSys String) { text := "boom" }).1 rfl
  · exact (panic_entry_spec sysF { text := "boom" }).2.1 7
      (new_with_hook "" hookF 7) "" rfl rfl rfl rfl

/-- C2: registering H1 and then H2 leaves the Global Dispatch Slot holding
exactly H2's trampoline tag and H2's address; neither registration touches any
handler's memory (in particular H1's); and a fault simulated afterwards
invokes only H2's hook — the only memory change is at H2's address, and H1's
entry is still its original value. -/
theorem register_replaces {W : Type} (s : Sys W) (a1 a2 : Nat)
    (h1 h2 : PanicHandler W) (w2 : W) (info : PanicInfo)
    (hm1 : s.mem a1 = some h1) (hm2 : s.mem a2 = some h2) (hne : a1 ≠ a2)
    (hw2 : h2.writer = some w2) :
    (register (register s a1 h1.tag) a2 h2.tag).PANIC_HANDLER_GETTER = some h2.tag ∧
    (register (register s a1 h1.tag) a2 h2.tag).PANIC_HANDLER = a2 ∧
    (register (register s a1 h1.tag) a2 h2.tag).mem = s.mem ∧
    panic (register (register s a1 h1.tag) a2 h2.tag) info =
      some { register (register s a1 h1.tag) a2 h2.tag with
        mem := updMem s.mem a2 (some { h2 with writer := some (h2.hook w2 info) }),
        halted := true } ∧
    updMem s.mem a2 (some { h2 with writer := some (h2.hook w2 info) }) a1 = some h1 := by
  refine ⟨rfl, rfl, rfl, ?_, ?_⟩
  · simp [panic, register, trampoline, hm2, hw2]
  · simp [updMem, hne, hm1]

/-- Witness for C2: after registering H1 (tag 10, address 1) then H2 (tag 20,
address 2), the slot holds tag 20 and address 2, and a simulated fault runs
only H2's hook (appending "B" to H2's sink) while H1's entry is unchanged. -/
theorem register_replaces_witness :
    (register (register sys2u 1 (new_with_hook "s1" hookA 10).tag) 2
        (new_with_hook "s2" hookB 20).tag).PANIC_HANDLER_GETTER = some 20 ∧
    (register (register sys2u 1 (new_with_hook "s1" hookA 10).tag) 2
        (new_with_hook "s2" hookB 20).tag).PANIC_HANDLER = 2 ∧
    panic (register (register sys2u 1 (new_with_hook "s1" hookA 10).tag) 2
        (new_with_hook "s2" hookB 20).tag) { text := "m" } =
      some { register (register sys2u 1 (new_with_hook "s1" hookA 10).tag) 2
          (new_with_hook "s2" hookB 20).tag with
        mem := updMem sys2u.mem 2 (some { new_with_hook "s2" hookB 20 with
          writer := some ((new_with_hook "s2" hookB 20).hook "s2" { text := "m" }) }),
        halted := true } ∧
    updMem sys2u.mem 2 (some { new_with_hook "s2" hookB 20 with
        writer := some ((new_with_hook "s2" hookB 20).hook "s2" { text := "m" }) }) 1 =
      some (new_with_hook "s1" hookA 10) := by
  have hx := register_replaces sys2u 1 2 (new_with_hook "s1" hookA 10)
    (new_with_hook "s2" hookB 20) "s2" { text := "m" } rfl rfl (by decide) rfl
  exact ⟨hx.1, hx.2.1, hx.2.2.2.1, hx.2.2.2.2⟩

/-- C3 counterexample: the claim's "if and only if the slot currently points
at H (leaving the slot unchanged when a different Handler Object is
registered)" is false.  In `sys2` the slot points at H1 (address 1, tag 10),
yet detaching H2 (address 2) also clears the slot: `detach` zeroes both
globals unconditionally. -/
theorem detach_clears_unconditionally :
    sys2.PANIC_HANDLER = 1 ∧ sys2.PANIC_HANDLER ≠ 2 ∧
    sys2.PANIC_HANDLER_GETTER = some 10 ∧
    (detach sys2 2).1.PANIC_HANDLER_GETTER = none ∧
    (detach sys2 2).1.PANIC_HANDLER = 0 ∧
    ¬((detach sys2 2).1.PANIC_HANDLER_GETTER = sys2.PANIC_HANDLER_GETTER ∧
      (detach sys2 2).1.PANIC_HANDLER = sys2.PANIC_HANDLER) := by
  refine ⟨rfl, by decide, rfl, rfl, rfl, ?_⟩
  intro hcl
  exact Option.noConfusion hcl.1

/-- C3 (amended): `detach H` always clears the Global Dispatch Slot — even
when the slot points at a different Handler Object or at none — returns
ownership of H's writer to the caller, leaves H's writer slot retired
(uninit), is safe whether or not registration is active (no hypothesis on the
slot), and a fault simulated after the detach performs no reporting action
(the state changes only in `halted`). -/
theorem detach_spec {W : Type} (s : Sys W) (addr : Nat) (h : PanicHandler W)
    (info : PanicInfo) (hm : s.mem addr = some h) :
    (detach s addr).1.PANIC_HANDLER_GETTER = none ∧
    (detach s addr).1.PANIC_HANDLER = 0 ∧
    (detach s addr).2 = h.writer ∧
    (detach s addr).1.mem addr = some { h with writer := none } ∧
    panic (detach s addr).1 info = some { (detach s addr).1 with halted := true } := by
  have hd : detach s addr =
      ({ s with
          PANIC_HANDLER_GETTER := none, PANIC_HANDLER := 0,
          mem := updMem s.mem addr (some { h with writer := none }) }, h.writer) := by
    simp [detach, hm]
  rw [hd]
  refine ⟨rfl, rfl, rfl, ?_, rfl⟩
  simp [updMem]

/-- Witness for C3 (amended): detaching the registered H1 in `sys2` clears
the slot, returns H1's sink "s1", retires H1's writer slot, and a later
simulated fault only halts. -/
theorem detach_spec_witness :
    (detach sys2 1).1.PANIC_HANDLER_GETTER = none ∧
    (detach sys2 1).1.PANIC_HANDLER = 0 ∧
    (detach sys2 1).2 = some "s1" ∧
    (detach sys2 1).1.mem 1 = some { new_with_hook "s1" hookA 10 with writer := none } ∧
    panic (detach sys2 1).1 { text := "m" } =
      some { (detach sys2 1).1 with halted := true } := by
  have hx := detach_spec sys2 1 (new_with_hook "s1" hookA 10) { text := "m" } rfl
  exact ⟨hx.1, hx.2.1, hx.2.2.1, hx.2.2.2.1, hx.2.2.2.2⟩

/-- C4: destroying the handler at `addr` on scope exit (the `Drop` impl for
the pinned handle followed by release of the handler's storage) first clears
the Global Dispatch Slot and then releases the storage, so when the destroyed
handler was the registered entry the slot never outlives it: afterwards the
slot is empty, the stored pointer no longer resolves to any handler, and a
simulated fault produces no report (only `halted` changes). -/
theorem destroy_clears_slot {W : Type} (s : Sys W) (addr : Nat) (info : PanicInfo)
    (hreg : s.PANIC_HANDLER = addr) :
    destroy s addr =
      { s with
        PANIC_HANDLER_GETTER := none, PANIC_HANDLER := 0,
        mem := updMem s.mem addr none } ∧
    (destroy s addr).PANIC_HANDLER_GETTER = none ∧
    (destroy s addr).PANIC_HANDLER = 0 ∧
    (destroy s addr).mem s.PANIC_HANDLER = none ∧
    panic (destroy s addr) info = some { destroy s addr with halted := true } := by
  refine ⟨rfl, rfl, rfl, ?_, rfl⟩
  simp [destroy, drop, updMem, hreg]

/-- Witness for C4: destroying the registered H1 of `sys2` (address 1)
empties the slot, unmaps address 1, and a simulated fault afterwards only
halts. -/
theorem destroy_clears_slot_witness :
    destroy sys2 1 =
      { sys2 with
        PANIC_HANDLER_GETTER := none, PANIC_HANDLER := 0,
        mem := updMem sys2.mem 1 none } ∧
    (destroy sys2 1).PANIC_HANDLER_GETTER = none ∧
    (destroy sys2 1).mem 1 = none ∧
    panic (destroy sys2 1) { text := "m" } =
      some { destroy sys2 1 with halted := true } := by
  have hx := destroy_clears_slot sys2 1 { text := "m" } rfl
  exact ⟨hx.1, hx.2.1, hx.2.2.2.1, hx.2.2.2.2⟩

/-- C5: the round trip — construct a handler from sink `S` with the
convenience constructor, register it, detach it — returns exactly the sink
`S`: the register/detach cycle leaves the sink's accumulated content
unchanged. -/
theorem register_detach_round_trip {W : Type} (wm : WriteStr W) (s : Sys W)
    (addr tag : Nat) (S : W) (hm : s.mem addr = some (new wm S tag)) :
    (detach (register s addr tag) addr).2 = some S := by
  simp [detach, register, hm, new, new_with_hook]

/-- Witness for C5: constructing a handler over the buffer "hello", placing
it at address 4, registering and detaching returns exactly "hello". -/
theorem register_detach_round_trip_witness :
    (detach
      (register
        { mem := updMem (fun _ => none) 4 (some (new strWriter "hello" 9)),
          PANIC_HANDLER_GETTER := none, PANIC_HANDLER := 0, halted := false }
        4 9) 4).2 = some "hello" :=
  register_detach_round_trip strWriter
    { mem := updMem (fun _ => none) 4 (some (new strWriter "hello" 9)),
      PANIC_HANDLER_GETTER := none, PANIC_HANDLER := 0, halted := false }
    4 9 "hello" rfl

/-- C6: a handler built by the convenience constructor `new` over an empty
growable text buffer, once registered, reacts to a fault by writing the fault
metadata's textual representation verbatim to the sink and nothing else (the
buffer afterwards is exactly `info.text`); and for every writer whatsoever —
including one whose `write_str` reports a formatting failure — the default
hook returns the written sink and discards the error flag, so a formatting
failure never propagates out of fault handling. -/
theorem default_hook_verbatim (s : Sys String) (addr tag : Nat) (info : PanicInfo)
    (hm : s.mem addr = some (new strWriter "" tag))
    (hg : s.PANIC_HANDLER_GETTER = some tag) (hp : s.PANIC_HANDLER = addr) :
    (∃ s', panic s info = some s' ∧ (s'.mem addr).bind deref = some info.text) ∧
    (∀ (W : Type) (wm : WriteStr W) (w : W),
      default_hook wm w info = (wm.write_str w info.text).1) := by
  constructor
  · refine ⟨{ s with
        mem := updMem s.mem addr (some { new strWriter "" tag with
          writer := some ((new strWriter "" tag).hook "" info) }),
        halted := true }, ?_, ?_⟩
    · simp [panic, hg, hp, trampoline, hm, new, new_with_hook]
    · simp [updMem, deref, new, new_with_hook, default_hook, strWriter]
  · intro V wm w
    rfl

/-- Witness for C6: the scenario of the spec — a registered default handler
over an empty buffer, a fault with metadata text
"panicked at src.rs:10: index out of bounds" — leaves the buffer holding
exactly that text; and a `write_str` that always fails still yields the
written sink from the default hook. -/
theorem default_hook_verbatim_witness :
    (∃ s', panic sysDefault { text := "panicked at src.rs:10: index out of bounds" } =
        some s' ∧
      (s'.mem 1).bind deref = some "panicked at src.rs:10: index out of bounds") ∧
    default_hook { write_str := fun (s t : String) => (s ++ t, false) } "x"
        { text := "panicked at src.rs:10: index out of bounds" } =
      "xpanicked at src.rs:10: index out of bounds" := by
  have hx := default_hook_verbatim sysDefault 1 3
    { text := "panicked at src.rs:10: index out of bounds" } rfl rfl rfl
  refine ⟨hx.1, ?_⟩
  have hy := hx.2 String { write_str := fun (s t : String) => (s ++ t, false) } "x"
  simpa using hy

/-- C7: the Global Dispatch Slot invariant — pointer and trampoline both
absent or both present, and when present the trampoline is the one
monomorphized for the concrete type of the live handler the pointer refers
to — holds initially and is preserved by `register` (of a live handler at a
non-null address, with its own monomorphization tag), by `detach`, by the
pinned handle's `drop`, by `destroy`, and by the fault entry point. -/
theorem slot_invariant {W : Type} (s : Sys W) (addr : Nat) (h : PanicHandler W)
    (info : PanicInfo) :
    slotInv (initSys W) ∧
    (s.mem addr = some h → addr ≠ 0 → slotInv (register s addr h.tag)) ∧
    slotInv (detach s addr).1 ∧
    slotInv (drop s) ∧
    slotInv (destroy s addr) ∧
    (∀ s', slotInv s → panic s info = some s' → slotInv s') := by
  refine ⟨Or.inl ⟨rfl, rfl⟩, ?_, ?_, Or.inl ⟨rfl, rfl⟩, Or.inl ⟨rfl, rfl⟩, ?_⟩
  · intro hm h0
    exact Or.inr ⟨h.tag, h, rfl, h0, hm, rfl⟩
  · unfold detach
    cases hm : s.mem addr with
    | none => exact Or.inl ⟨by simp [hm], by simp [hm]⟩
    | some h1 => exact Or.inl ⟨by simp [hm], by simp [hm]⟩
  · intro s' hinv hs
    unfold panic at hs
    rcases hinv with ⟨hg, hp⟩ | ⟨tag, h1, hg, hp, hmem, htag⟩
    · rw [hg] at hs
      simp only [Option.some.injEq] at hs
      subst hs
      exact Or.inl ⟨rfl, hp⟩
    · rw [hg] at hs
      rw [Option.map_eq_some'] at hs
      obtain ⟨a, ha, has⟩ := hs
      subst has
      unfold trampoline at ha
      rw [hmem, Option.some_bind, if_pos htag, Option.map_eq_some'] at ha
      obtain ⟨w, _, hwa⟩ := ha
      subst hwa
      refine Or.inr ⟨tag, { h1 with writer := some (h1.hook w info) }, hg, hp, ?_, htag⟩
      simp [updMem]

/-- Witness for C7: the invariant holds at process start, after registering
the live handler H1 (tag 10) at the non-null address 1 of `sys2u`, and after
the fault taken from the resulting state. -/
theorem slot_invariant_witness :
    slotInv (initSys String) ∧
    slotInv (register sys2u 1 (new_with_hook "s1" hookA 10).tag) ∧
    slotInv (detach sys2 2).1 := by
  have hx := slot_invariant sys2u 1 (new_with_hook "s1" hookA 10) { text := "m" }
  have hy := slot_invariant sys2 2 (new_with_hook "s2" hookB 20) { text := "m" }
  exact ⟨hx.1, hx.2.1 rfl (by decide), hy.2.2.1⟩

/-- C8: a freshly constructed handler is a transparent pass-through to its
sink: `Deref`, `get_inner` and `DerefMut` on `new_with_hook S hook tag` read
exactly `S` and write exactly as writing on `S` directly would; and more
generally, on any handler whose writer slot still holds `w` (before detach),
the three accesses read and write exactly `w`. -/
theorem sink_pass_through {W : Type} (S w : W) (hk : W → PanicInfo → W)
    (tag : Nat) (f : W → W) (h : PanicHandler W) (hw : h.writer = some w) :
    deref (new_with_hook S hk tag) = some S ∧
    get_inner (new_with_hook S hk tag) = some S ∧
    deref_mut (new_with_hook S hk tag) f = some (new_with_hook (f S) hk tag) ∧
    deref h = some w ∧
    get_inner h = some w ∧
    deref_mut h f = some { h with writer := some (f w) } := by
  refine ⟨rfl, rfl, rfl, ?_, ?_, ?_⟩ <;> simp [deref, get_inner, deref_mut, hw]

/-- Witness for C8: reading through a handler over the buffer "log" yields
"log", and appending "x" through its `DerefMut` surface yields the handler
over "logx", exactly as appending to the buffer directly. -/
theorem sink_pass_through_witness :
    deref (new_with_hook "log" hookA 10) = some "log" ∧
    deref_mut (new_with_hook "log" hookA 10) (fun w => w ++ "x") =
      some (new_with_hook ("log" ++ "x") hookA 10) ∧
    get_inner (new_with_hook "log" hookA 10) = some "log" := by
  have hx := sink_pass_through "log" "log" hookA 10 (fun w => w ++ "x")
    (new_with_hook "log" hookA 10) rfl
  exact ⟨hx.1, hx.2.2.1, hx.2.1⟩

/-- Helper: a sink use never touches the two globals of the Global Dispatch
Slot. -/
theorem useSinkAt_globals {W : Type} (s : Sys W) (a : Nat) (f : W → W) :
    (useSinkAt s a f).PANIC_HANDLER = s.PANIC_HANDLER ∧
    (useSinkAt s a f).PANIC_HANDLER_GETTER = s.PANIC_HANDLER_GETTER := by
  unfold useSinkAt
  cases hma : s.mem a with
  | none => exact ⟨rfl, rfl⟩
  | some h =>
    cases hwh : h.writer with
    | none => simp [deref_mut, hwh]
    | some w => simp [deref_mut, hwh]

/-- Helper: a sink use keeps a live, initialized handler entry live and
initialized, with the same hook and tag. -/
theorem useSinkAt_mem {W : Type} (s : Sys W) (a addr : Nat) (f : W → W)
    (hk : W → PanicInfo → W) (tg : Nat) (w' : W)
    (hm : s.mem addr = some { writer := some w', hook := hk, tag := tg }) :
    ∃ w2, (useSinkAt s a f).mem addr =
      some { writer := some w2, hook := hk, tag := tg } := by
  by_cases haa : a = addr
  · subst haa
    unfold useSinkAt
    rw [hm]
    refine ⟨f w', ?_⟩
    simp [deref_mut, updMem]
  · unfold useSinkAt
    cases hma : s.mem a with
    | none => exact ⟨w', hm⟩
    | some h =>
      cases hwh : h.writer with
      | none =>
        simp only [deref_mut, hwh, Option.map_none']
        exact ⟨w', hm⟩
      | some w =>
        refine ⟨w', ?_⟩
        simp [deref_mut, hwh, updMem, Ne.symm haa, hm]

/-- Helper: as long as the application only uses handlers as sinks, the
registered address, the published trampoline tag, and the liveness and
initializedness of the handler entry at `addr` are all preserved. -/
theorem runUses_stable {W : Type} (ops : List (Nat × (W → W))) (s : Sys W)
    (addr : Nat) (hk : W → PanicInfo → W) (tg : Nat)
    (hp : s.PANIC_HANDLER = addr) (hg : s.PANIC_HANDLER_GETTER = some tg)
    (hex : ∃ w', s.mem addr = some { writer := some w', hook := hk, tag := tg }) :
    (runUses s ops).PANIC_HANDLER = addr ∧
    (runUses s ops).PANIC_HANDLER_GETTER = some tg ∧
    ∃ w', (runUses s ops).mem addr =
      some { writer := some w', hook := hk, tag := tg } := by
  induction ops generalizing s with
  | nil => exact ⟨hp, hg, hex⟩
  | cons op rest ih =>
    obtain ⟨a, f⟩ := op
    obtain ⟨w', hm⟩ := hex
    have hgl := useSinkAt_globals s a f
    have hmm := useSinkAt_mem s a addr f hk tg w' hm
    have hrw : runUses s ((a, f) :: rest) = runUses (useSinkAt s a f) rest := rfl
    rw [hrw]
    exact ih (useSinkAt s a f) (hgl.1.trans hp) (hgl.2.trans hg) hmm

/-- C9: under the pinning precondition — which the model realizes by giving
every handler a fixed address in `mem` that no operation relocates — once a
live handler `h` with initialized writer is registered at `addr`, then for
the whole duration of the registration (any sequence of sink uses, the only
operations that do not deregister) the untyped pointer stored in the Global
Dispatch Slot still equals `addr`, the slot still holds `h`'s trampoline tag,
`addr` still resolves to the same live handler (same hook, same tag, writer
still initialized), and the trampoline's pointer reinterpretation at a fault
is sound: the fault entry point invokes exactly that handler's hook on its
current writer. -/
theorem pinned_pointer_valid {W : Type} (s : Sys W) (addr : Nat)
    (h : PanicHandler W) (w : W) (info : PanicInfo)
    (ops : List (Nat × (W → W)))
    (hm : s.mem addr = some h) (hw : h.writer = some w) :
    (runUses (register s addr h.tag) ops).PANIC_HANDLER = addr ∧
    (runUses (register s addr h.tag) ops).PANIC_HANDLER_GETTER = some h.tag ∧
    ∃ w', (runUses (register s addr h.tag) ops).mem addr =
        some { writer := some w', hook := h.hook, tag := h.tag } ∧
      panic (runUses (register s addr h.tag) ops) info =
        some { runUses (register s addr h.tag) ops with
          mem := updMem (runUses (register s addr h.tag) ops).mem addr
            (some { writer := some (h.hook w' info), hook := h.hook, tag := h.tag }),
          halted := true } := by
  have hex : ∃ w', (register s addr h.tag).mem addr =
      some { writer := some w', hook := h.hook, tag := h.tag } := by
    refine ⟨w, ?_⟩
    show s.mem addr = _
    rw [hm, ← hw]
  have hst := runUses_stable ops (register s addr h.tag) addr h.hook h.tag rfl rfl hex
  obtain ⟨hp2, hg2, w', hm2⟩ := hst
  refine ⟨hp2, hg2, w', hm2, ?_⟩
  have hpan : panic (runUses (register s addr h.tag) ops) info =
      (trampoline (runUses (register s addr h.tag) ops) h.tag addr info).map
        fun s2 => { s2 with halted := true } := by
    unfold panic
    rw [hg2, hp2]
  rw [hpan]
  simp [trampoline, hm2]

/-- Witness for C9: registering the live H1 (sink "s1", hook `hookA`, tag 10)
of `sys2u` at its address 1, then using handler 1 as a sink (appending "x")
and handler 2 as a sink (appending "y"), leaves the slot pointing at address
1 with tag 10, address 1 live and initialized, and a fault dispatches to H1's
hook. -/
theorem pinned_pointer_valid_witness :
    (runUses (register sys2u 1 (new_with_hook "s1" hookA 10).tag)
        [(1, fun w => w ++ "x"), (2, fun w => w ++ "y")]).PANIC_HANDLER = 1 ∧
    (runUses (register sys2u 1 (new_with_hook "s1" hookA 10).tag)
        [(1, fun w => w ++ "x"), (2, fun w => w ++ "y")]).PANIC_HANDLER_GETTER =
      some (new_with_hook "s1" hookA 10).tag ∧
    ∃ w', (runUses (register sys2u 1 (new_with_hook "s1" hookA 10).tag)
          [(1, fun w => w ++ "x"), (2, fun w => w ++ "y")]).mem 1 =
        some {
          writer := some w', hook := (new_with_hook "s1" hookA 10).hook,
          tag := (new_with_hook "s1" hookA 10).tag } ∧
      panic (runUses (register sys2u 1 (new_with_hook "s1" hookA 10).tag)
          [(1, fun w => w ++ "x"), (2, fun w => w ++ "y")]) { text := "m" } =
        some { runUses (register sys2u 1 (new_with_hook "s1" hookA 10).tag)
            [(1, fun w => w ++ "x"), (2, fun w => w ++ "y")] with
          mem := updMem (runUses (register sys2u 1 (new_with_hook "s1" hookA 10).tag)
              [(1, fun w => w ++ "x"), (2, fun w => w ++ "y")]).mem 1
            (some {
              writer := some ((new_with_hook "s1" hookA 10).hook w' { text := "m" }),
              hook := (new_with_hook "s1" hookA 10).hook,
              tag := (new_with_hook "s1" hookA 10).tag }),
          halted := true } :=
  pinned_pointer_valid sys2u 1 (new_with_hook "s1" hookA 10) "s1" { text := "m" }
    [(1, fun w => w ++ "x"), (2, fun w => w ++ "y")] rfl rfl

/-- C10: a handler built by `new_with_hook` or `new` starts with its writer
slot holding the supplied sink; `register` and the pinned handle's `drop`
never touch handler memory; a sink use on an initialized handler leaves it
initialized; and on any handler whose writer slot is still initialized (i.e.
detach has not retired it), the unsafe reads in `Deref`, `DerefMut`,
`get_inner` and the trampoline are all reachable-free of the uninit branch:
each returns the originally stored sink (as updated by previous writes),
never the `none` of an uninitialized read. -/
theorem writer_initialized {W : Type} (wm : WriteStr W) (S w : W)
    (hk : W → PanicInfo → W) (tag a p tg : Nat) (f : W → W)
    (h : PanicHandler W) (s : Sys W) (info : PanicInfo)
    (hw : h.writer = some w) :
    (new_with_hook S hk tag).writer = some S ∧
    (new wm S tag).writer = some S ∧
    (register s a tg).mem = s.mem ∧
    (drop s).mem = s.mem ∧
    (s.mem a = some h → (useSinkAt s a f).mem a = some { h with writer := some (f w) }) ∧
    deref h = some w ∧
    get_inner h = some w ∧
    deref_mut h f = some { h with writer := some (f w) } ∧
    (s.mem p = some h → h.tag = tg →
      trampoline s tg p info =
        some { s with
          mem := updMem s.mem p (some { h with writer := some (h.hook w info) }) }) := by
  refine ⟨rfl, rfl, rfl, rfl, ?_, ?_, ?_, ?_, ?_⟩
  · intro hma
    unfold useSinkAt
    rw [hma]
    simp [deref_mut, hw, updMem]
  · simp [deref, hw]
  · simp [get_inner, hw]
  · simp [deref_mut, hw]
  · intro hmp ht
    simp [trampoline, hmp, ht, hw]

/-- Witness for C10: the handler over "s1" in `sys2u` is initialized, all the
pass-through reads see "s1", a write through it appends in place, and the
trampoline at its address and tag succeeds. -/
theorem writer_initialized_witness :
    (new_with_hook "s1" hookA 10).writer = some "s1" ∧
    (new strWriter "s1" 10).writer = some "s1" ∧
    deref (new_with_hook "s1" hookA 10) = some "s1" ∧
    deref_mut (new_with_hook "s1" hookA 10) (fun w => w ++ "x") =
      some { new_with_hook "s1" hookA 10 with writer := some ("s1" ++ "x") } ∧
    trampoline sys2u 10 1 { text := "m" } =
      some { sys2u with
        mem := updMem sys2u.mem 1
          (some { new_with_hook "s1" hookA 10 with
            writer := some ((new_with_hook "s1" hookA 10).hook "s1" { text := "m" }) }) } := by
  have hx := writer_initialized strWriter "s1" "s1" hookA 10 1 1 10
    (fun w => w ++ "x") (new_with_hook "s1" hookA 10) sys2u { text := "m" } rfl
  exact ⟨hx.1, hx.2.1, hx.2.2.2.2.2.1, hx.2.2.2.2.2.2.2.1, hx.2.2.2.2.2.2.2.2 rfl rfl⟩

end PanicWrite
